import Mathlib

/-!
Shallow embedding of the two synthetic-data generator scripts of this repository:

* `Scripts/generate_demo_csv.py` — single-session variant (`generate_demo_csv`),
* `Scripts/generate_professional_demo_csv.py` — multi-session variant
  (`generate_session`, `generate_professional_demo`).

Modelling conventions:

* Python floats are modelled as exact rationals (`ℚ`); `math.sin` and `math.pi` are
  abstract parameters `s : ℚ → ℚ` and `p : ℚ` (theorems that need it assume
  `∀ x, |s x| ≤ 1`).
* Every `random.*` call of the source is an explicit input: each sample `i` receives an
  environment record (`DemoEnv` / `ProEnv`) with one field per random call site, a field
  drawn from `random.uniform(a, b)` carries the range `[a, b]` as a hypothesis where a
  theorem needs it, and a `random.gauss` field is unconstrained (Gaussian draws are
  unbounded).  The duration and amplitude draws made inside the clench loop are indexed
  by the window number, mirroring one fresh draw per loop iteration.
* Python `int(x)` truncates toward zero (`pyTrunc`); `datetime` timestamps are modelled
  as rational seconds `start + i / 20` (all offsets are whole multiples of 50 ms, so the
  millisecond formatting of the source preserves them exactly).
* The generated CSV body is the list of `Sample` records in emission order.
-/

/-- Python `int(...)` applied to a float: truncation toward zero. -/
def pyTrunc (x : ℚ) : ℤ := if 0 ≤ x then ⌊x⌋ else ⌈x⌉

/-- Membership of time `t` in the clench window number `k` (window start `spacing * k`):
the source test `clench_start <= t < clench_start + clench_duration`. -/
abbrev inWindow (spacing : ℕ) (dur : ℕ → ℚ) (k : ℕ) (t : ℚ) : Prop :=
  (spacing : ℚ) * k ≤ t ∧ t < (spacing : ℚ) * k + dur k

/-- Trapezoid branch of the clench loop body: `f` is the ramp fraction (0.2 in the
single-session script, 0.15 in the multi-session script), `p` the progress through the
window, `a` the amplitude draw of the branch that executes. -/
def clenchShape (f p a : ℚ) : ℚ :=
  if p < f then (p / f) * a
  else if 1 - f < p then ((1 - p) / f) * a
  else a

/-- The clench loop `for clench_start in range(0, total, spacing): ...` of either script:
`clench_amplitude` starts at 0 and is overwritten by the trapezoid value whenever `t`
lies in the current window; `dur k` / `amp k` are the per-iteration random draws. -/
def clenchFold (spacing : ℕ) (f : ℚ) (dur amp : ℕ → ℚ) (n : ℕ) (t : ℚ) : ℚ :=
  (List.range n).foldl
    (fun acc k =>
      if inWindow spacing dur k t then
        clenchShape f ((t - (spacing : ℚ) * k) / dur k) (amp k)
      else acc)
    0

/-- Number of iterations of `range(0, total, spacing)` for positive `spacing`. -/
def numWindows (total spacing : ℕ) : ℕ := (total + spacing - 1) / spacing

/-- One CSV row as generated by either script (fields in source column order). -/
structure Sample where
  timestamp : ℚ
  ppg_ir : ℤ
  ppg_red : ℤ
  ppg_green : ℤ
  accel_x : ℤ
  accel_y : ℤ
  accel_z : ℤ
  temperature : ℚ
  heart_rate : ℤ
  spo2 : ℚ
  battery : ℤ
  device_id : String
  deriving DecidableEq

/-- Random draws consumed by one loop iteration (one sample) of `generate_demo_csv`,
one field per `random.*` call site, in source order. -/
structure DemoEnv where
  /-- `random.uniform(-2, 2)` in `heart_rate = 70 + ...` (line 43). -/
  hrU : ℚ
  /-- `random.uniform(2, 4)` clench duration, one per window iteration (line 53). -/
  dur : ℕ → ℚ
  /-- `random.uniform(10000, 20000)` clench amplitude, one per matching window (lines 58-62). -/
  amp : ℕ → ℚ
  /-- `random.gauss(0, 300)` PPG noise (line 65). -/
  noiseG : ℚ
  /-- `random.gauss(0, 200)` red-channel noise (line 72). -/
  redG : ℚ
  /-- `random.gauss(0, 150)` green-channel noise (line 73). -/
  greenG : ℚ
  /-- `random.gauss(0, 0.01)` accel x base (line 77). -/
  axG : ℚ
  /-- `random.gauss(0, 0.01)` accel y base (line 78). -/
  ayG : ℚ
  /-- `random.gauss(0, 0.01)` accel z base (line 79). -/
  azG : ℚ
  /-- `random.gauss(0, 0.05)` extra accel x during a strong clench (line 83). -/
  axExG : ℚ
  /-- `random.gauss(0, 0.05)` extra accel y during a strong clench (line 84). -/
  ayExG : ℚ
  /-- `random.gauss(0, 0.05)` temperature noise (line 93). -/
  tempG : ℚ
  /-- `random.gauss(0, 1)` displayed heart-rate noise (line 96). -/
  hrDispG : ℚ
  /-- `random.gauss(0, 0.5)` SpO2 noise (line 99). -/
  spo2G : ℚ

/-- Random draws consumed by one loop iteration (one sample) of `generate_session`,
one field per `random.*` call site, in source order. -/
structure ProEnv where
  /-- `random.uniform(1.5, 3.5)` clench duration, one per window iteration (line 34). -/
  dur : ℕ → ℚ
  /-- `random.uniform(8000, 18000)` clench amplitude, one per matching window (lines 38-42). -/
  amp : ℕ → ℚ
  /-- `random.gauss(0, 250)` PPG noise (line 44). -/
  noiseG : ℚ
  /-- `random.gauss(0, 150)` accel x (line 48). -/
  axG : ℚ
  /-- `random.gauss(0, 150)` accel y (line 49). -/
  ayG : ℚ
  /-- `random.gauss(0, 150)` accel z (line 50). -/
  azG : ℚ
  /-- `random.gauss(0, 0.03)` temperature noise (line 53). -/
  tempG : ℚ
  /-- `random.randint(-3, 3)` heart-rate jitter (line 64). -/
  hrJ : ℤ
  /-- `random.gauss(0, 0.4)` SpO2 noise (line 65). -/
  spo2G : ℚ

/-- The bpm used by one sample of `generate_demo_csv`:
`heart_rate = 70 + random.uniform(-2, 2)`, drawn inside the per-sample loop (line 43). -/
def demoBpm (e : DemoEnv) : ℚ := 70 + e.hrU

/-- Cardiac component of one demo sample:
`cardiac = 1500 * math.sin(2 * math.pi * (heart_rate / 60) * t)` (line 44). -/
def demoCardiac (s : ℚ → ℚ) (p : ℚ) (e : DemoEnv) (t : ℚ) : ℚ :=
  1500 * s (2 * p * (demoBpm e / 60) * t)

/-- Clench envelope of one demo sample: windows every 15 s over `duration_seconds`,
ramp fraction 0.2 (lines 51-62). -/
def demoClench (e : DemoEnv) (D : ℕ) (t : ℚ) : ℚ :=
  clenchFold 15 0.2 e.dur e.amp (numWindows D 15) t

/-- The value `baseline + cardiac + breathing + clench_amplitude + noise` of one demo
sample before `int()` and clamping (lines 40-68). -/
def demoPpgRaw (s : ℚ → ℚ) (p : ℚ) (e : DemoEnv) (D : ℕ) (t : ℚ) : ℚ :=
  (50000 + 2000 * s (t / 30)) + demoCardiac s p e t + 800 * s (2 * p * (15 / 60) * t)
    + demoClench e D t + e.noiseG

/-- One row of `generate_demo_csv` given the sample's draws `e` (body of the loop,
lines 30-118).  `ppg_ir` is clamped to `[0, 262143]` (line 69). -/
def demoSampleE (s : ℚ → ℚ) (p st : ℚ) (e : DemoEnv) (D i : ℕ) : Sample :=
  let t : ℚ := (i : ℚ) / 20
  let clench : ℚ := demoClench e D t
  let ppgIr : ℤ := max 0 (min 262143 (pyTrunc (demoPpgRaw s p e D t)))
  { timestamp := st + (i : ℚ) / 20
    ppg_ir := ppgIr
    ppg_red := pyTrunc ((ppgIr : ℚ) * 0.7 + e.redG)
    ppg_green := pyTrunc ((ppgIr : ℚ) * 0.5 + e.greenG)
    accel_x := pyTrunc ((e.axG + (if 5000 < clench then e.axExG else 0)) * 16384)
    accel_y := pyTrunc ((e.ayG + (if 5000 < clench then e.ayExG else 0)) * 16384)
    accel_z := pyTrunc ((1 + e.azG) * 16384)
    temperature := 36.5 + 0.3 * s (t / 60) + e.tempG
    heart_rate := pyTrunc (demoBpm e + e.hrDispG)
    spo2 := max 95 (min 100 (98 + e.spo2G))
    battery := 85
    device_id := "DEMO-ORALABLE-001" }

/-- Row `i` of `generate_demo_csv`, with `env i` the draws consumed at sample `i`. -/
def demoSample (s : ℚ → ℚ) (p st : ℚ) (env : ℕ → DemoEnv) (D i : ℕ) : Sample :=
  demoSampleE s p st (env i) D i

/-- The row list written by `generate_demo_csv(output_path, duration_seconds = D)`:
`total_samples = duration_seconds * 20` rows (lines 22-30, 120-128). -/
def generate_demo_csv (s : ℚ → ℚ) (p st : ℚ) (env : ℕ → DemoEnv) (D : ℕ) : List Sample :=
  (List.range (D * 20)).map (fun i => demoSample s p st env D i)

/-- Cardiac component of one multi-session sample:
`cardiac = 1200 * math.sin(2 * math.pi * (72 / 60) * t)`, bpm fixed at 72 (line 27). -/
def proCardiac (s : ℚ → ℚ) (p : ℚ) (t : ℚ) : ℚ :=
  1200 * s (2 * p * (72 / 60) * t)

/-- Clench envelope of one multi-session sample: window spacing
`clench_frequency = 12 + session_id * 3` over `duration_minutes * 60` seconds, ramp
fraction 0.15 (lines 31-42). -/
def proClench (e : ProEnv) (sid M : ℕ) (t : ℚ) : ℚ :=
  clenchFold (12 + sid * 3) 0.15 e.dur e.amp (numWindows (M * 60) (12 + sid * 3)) t

/-- The value `baseline + cardiac + breathing + clench_amplitude + noise` of one
multi-session sample before `int()`; the script applies no clamp (lines 26-45). -/
def proPpgRaw (s : ℚ → ℚ) (p : ℚ) (e : ProEnv) (sid M : ℕ) (t : ℚ) : ℚ :=
  (48000 + 4000 * s (t / 45)) + proCardiac s p t + 600 * s (2 * p * (14 / 60) * t)
    + proClench e sid M t + e.noiseG

/-- One row of `generate_session` given the sample's draws `e` (body of the loop,
lines 19-68).  `ppg_red` / `ppg_green` carry no noise, `spo2` is not clamped. -/
def proSampleE (s : ℚ → ℚ) (p st : ℚ) (e : ProEnv) (sid M i : ℕ) : Sample :=
  let t : ℚ := (i : ℚ) / 20
  let ppgIr : ℤ := pyTrunc (proPpgRaw s p e sid M t)
  { timestamp := st + (i : ℚ) / 20
    ppg_ir := ppgIr
    ppg_red := pyTrunc ((ppgIr : ℚ) * 0.7)
    ppg_green := pyTrunc ((ppgIr : ℚ) * 0.5)
    accel_x := pyTrunc e.axG
    accel_y := pyTrunc e.ayG
    accel_z := pyTrunc (16384 + e.azG)
    temperature := 36.4 + 0.2 * s (t / 120) + e.tempG
    heart_rate := 72 + e.hrJ
    spo2 := 98 + e.spo2G
    battery := 90 - (sid : ℤ) * 5
    device_id := "ORALABLE-DEMO-DEVICE" }

/-- Row `i` of `generate_session`, with `env i` the draws consumed at sample `i`. -/
def proSample (s : ℚ → ℚ) (p st : ℚ) (env : ℕ → ProEnv) (sid M i : ℕ) : Sample :=
  proSampleE s p st (env i) sid M i

/-- The row list returned by `generate_session(session_id = sid, session_date = st,
duration_minutes = M)`: `total_samples = duration_minutes * 60 * 20` rows (lines 12-70). -/
def generate_session (s : ℚ → ℚ) (p st : ℚ) (env : ℕ → ProEnv) (sid M : ℕ) : List Sample :=
  (List.range (M * 60 * 20)).map (fun i => proSample s p st env sid M i)

/-- The rows written to `demo_participant_session_{id}.csv` for session `j` by the first
loop of `generate_professional_demo` (lines 77-96): session ids 1, 2, 3 with durations
8, 10, 12 minutes; `pass` gives the random draws consumed by this pass. -/
def sessFile (s : ℚ → ℚ) (p : ℚ) (dates : Fin 3 → ℚ) (pass : Fin 3 → ℕ → ProEnv)
    (j : Fin 3) : List Sample :=
  generate_session s p (dates j) (pass j) ((j : ℕ) + 1) (8 + 2 * (j : ℕ))

/-- The rows written to `demo_participant_all_sessions.csv` by the second loop of
`generate_professional_demo` (lines 100-109): each session is generated AGAIN, with
fresh random draws `pass2`, and the results are concatenated. -/
def allSessionsRows (s : ℚ → ℚ) (p : ℚ) (dates : Fin 3 → ℚ)
    (pass2 : Fin 3 → ℕ → ProEnv) : List Sample :=
  sessFile s p dates pass2 0 ++ sessFile s p dates pass2 1 ++ sessFile s p dates pass2 2

/-- Projection of a row onto its draw-independent fields. -/
def metaProj (smp : Sample) : ℚ × ℤ × String := (smp.timestamp, smp.battery, smp.device_id)

/-- A concrete admissible stand-in for `math.sin`: the constant zero function. -/
def zeroSin : ℚ → ℚ := fun _ => 0

/-- Concrete demo draws with every uniform draw inside its documented range. -/
def wDemoEnv : DemoEnv :=
  { hrU := 0, dur := fun _ => 2, amp := fun _ => 10000, noiseG := 0, redG := 0,
    greenG := 0, axG := 0, ayG := 0, azG := 0, axExG := 0, ayExG := 0, tempG := 0,
    hrDispG := 0, spo2G := 0 }

/-- Concrete multi-session draws with every uniform draw inside its documented range. -/
def wProEnv : ProEnv :=
  { dur := fun _ => 2, amp := fun _ => 8000, noiseG := 0, axG := 0, ayG := 0, azG := 0,
    tempG := 0, hrJ := 0, spo2G := 0 }

/-- Truncation of a nonnegative value is nonnegative. -/
theorem pyTrunc_nonneg (x : ℚ) (h : 0 ≤ x) : 0 ≤ pyTrunc x := by
  unfold pyTrunc
  rw [if_pos h]
  exact Int.le_floor.mpr (by exact_mod_cast h)

/-- Truncation of a nonnegative value below `n` stays below `n`. -/
theorem pyTrunc_lt (x : ℚ) (n : ℤ) (h0 : 0 ≤ x) (h : x < (n : ℚ)) : pyTrunc x < n := by
  unfold pyTrunc
  rw [if_pos h0]
  exact Int.floor_lt.mpr h

/-- Peeling the last window off the clench loop. -/
theorem clenchFold_succ (spacing : ℕ) (f : ℚ) (dur amp : ℕ → ℚ) (m : ℕ) (t : ℚ) :
    clenchFold spacing f dur amp (m + 1) t =
      if inWindow spacing dur m t then
        clenchShape f ((t - (spacing : ℚ) * m) / dur m) (amp m)
      else clenchFold spacing f dur amp m t := by
  unfold clenchFold
  rw [List.range_succ m, List.foldl_append]
  rfl

/-- If `t` lies in no window, the clench loop leaves the initial 0 in place. -/
theorem clenchFold_of_not_mem (spacing : ℕ) (f : ℚ) (dur amp : ℕ → ℚ) (n : ℕ) (t : ℚ)
    (h : ∀ k, k < n → ¬ inWindow spacing dur k t) :
    clenchFold spacing f dur amp n t = 0 := by
  induction n with
  | zero => rfl
  | succ m ih =>
      rw [clenchFold_succ, if_neg (h m (Nat.lt_succ_self m))]
      exact ih fun k hk => h k (Nat.lt_succ_of_lt hk)

/-- If `t` lies in exactly one window `k`, the clench loop returns that window's
trapezoid value. -/
theorem clenchFold_of_mem (spacing : ℕ) (f : ℚ) (dur amp : ℕ → ℚ) (n : ℕ) (t : ℚ) (k : ℕ)
    (hk : k < n) (hmem : inWindow spacing dur k t)
    (huniq : ∀ j, j < n → j ≠ k → ¬ inWindow spacing dur j t) :
    clenchFold spacing f dur amp n t =
      clenchShape f ((t - (spacing : ℚ) * k) / dur k) (amp k) := by
  induction n with
  | zero => omega
  | succ m ih =>
      rw [clenchFold_succ]
      by_cases hkm : k = m
      · subst hkm
        rw [if_pos hmem]
      · rw [if_neg (huniq m (Nat.lt_succ_self m) fun h => hkm h.symm)]
        exact ih (by omega) fun j hj hjk => huniq j (Nat.lt_succ_of_lt hj) hjk

/-- When every window duration is at most the window spacing, two windows containing
the same time coincide. -/
theorem window_unique (spacing : ℕ) (dur : ℕ → ℚ) (maxd : ℚ)
    (hd : ∀ k, dur k ≤ maxd) (hms : maxd ≤ (spacing : ℚ)) (t : ℚ) (j k : ℕ)
    (hj : inWindow spacing dur j t) (hk : inWindow spacing dur k t) : j = k := by
  by_contra hne
  rcases Nat.lt_or_ge j k with hlt | hge
  · have h1 : (j : ℚ) + 1 ≤ (k : ℚ) := by exact_mod_cast hlt
    have h5 : (spacing : ℚ) * ((j : ℚ) + 1) ≤ (spacing : ℚ) * k :=
      mul_le_mul_of_nonneg_left h1 (by positivity)
    rw [mul_add, mul_one] at h5
    have h2 := hd j
    have h3 := hj.2
    have h4 := hk.1
    linarith
  · have hlt : k < j := by omega
    have h1 : (k : ℚ) + 1 ≤ (j : ℚ) := by exact_mod_cast hlt
    have h5 : (spacing : ℚ) * ((k : ℚ) + 1) ≤ (spacing : ℚ) * j :=
      mul_le_mul_of_nonneg_left h1 (by positivity)
    rw [mul_add, mul_one] at h5
    have h2 := hd k
    have h3 := hk.2
    have h4 := hj.1
    linarith

/-- The trapezoid value lies between 0 and the amplitude bound. -/
theorem clenchShape_bounds (f p a hi : ℚ) (hf : 0 < f) (hp0 : 0 ≤ p) (hp1 : p < 1)
    (ha0 : 0 ≤ a) (ha1 : a ≤ hi) : 0 ≤ clenchShape f p a ∧ clenchShape f p a ≤ hi := by
  unfold clenchShape
  split_ifs with h1 h2
  · have hq0 : 0 ≤ p / f := div_nonneg hp0 hf.le
    have hq1 : p / f ≤ 1 := (div_le_one hf).mpr h1.le
    refine ⟨mul_nonneg hq0 ha0, ?_⟩
    calc p / f * a ≤ 1 * a := mul_le_mul_of_nonneg_right hq1 ha0
      _ = a := one_mul a
      _ ≤ hi := ha1
  · have hq0 : 0 ≤ (1 - p) / f := div_nonneg (by linarith) hf.le
    have hq1 : (1 - p) / f ≤ 1 := (div_le_one hf).mpr (by linarith)
    refine ⟨mul_nonneg hq0 ha0, ?_⟩
    calc (1 - p) / f * a ≤ 1 * a := mul_le_mul_of_nonneg_right hq1 ha0
      _ = a := one_mul a
      _ ≤ hi := ha1
  · exact ⟨ha0, ha1⟩

/-- The clench loop's result lies between 0 and the amplitude bound. -/
theorem clenchFold_bounds (spacing : ℕ) (f : ℚ) (dur amp : ℕ → ℚ) (n : ℕ) (t : ℚ) (hi : ℚ)
    (hf : 0 < f) (hhi : 0 ≤ hi) (hdur : ∀ k, 0 < dur k)
    (hamp : ∀ k, 0 ≤ amp k ∧ amp k ≤ hi) :
    0 ≤ clenchFold spacing f dur amp n t ∧ clenchFold spacing f dur amp n t ≤ hi := by
  induction n with
  | zero => exact ⟨by simp [clenchFold], by simpa [clenchFold] using hhi⟩
  | succ m ih =>
      rw [clenchFold_succ]
      split_ifs with h
      · have hp0 : 0 ≤ (t - (spacing : ℚ) * m) / dur m :=
          div_nonneg (by linarith [h.1]) (hdur m).le
        have hp1 : (t - (spacing : ℚ) * m) / dur m < 1 :=
          (div_lt_one (hdur m)).mpr (by linarith [h.2])
        exact clenchShape_bounds f _ (amp m) hi hf hp0 hp1 (hamp m).1 (hamp m).2
      · exact ih

/-- Length of the single-session row list. -/
theorem demo_length (s : ℚ → ℚ) (p st : ℚ) (env : ℕ → DemoEnv) (D : ℕ) :
    (generate_demo_csv s p st env D).length = D * 20 := by
  simp [generate_demo_csv]

/-- Length of a multi-session row list. -/
theorem pro_length (s : ℚ → ℚ) (p st : ℚ) (env : ℕ → ProEnv) (sid M : ℕ) :
    (generate_session s p st env sid M).length = M * 60 * 20 := by
  simp [generate_session]

/-- Row `i` of the single-session file. -/
theorem demo_row (s : ℚ → ℚ) (p st : ℚ) (env : ℕ → DemoEnv) (D i : ℕ) (h : i < D * 20) :
    (generate_demo_csv s p st env D)[i]? = some (demoSample s p st env D i) := by
  simp [generate_demo_csv, List.getElem?_map, List.getElem?_range, h]

/-- Row `i` of a multi-session file. -/
theorem pro_row (s : ℚ → ℚ) (p st : ℚ) (env : ℕ → ProEnv) (sid M i : ℕ)
    (h : i < M * 60 * 20) :
    (generate_session s p st env sid M)[i]? = some (proSample s p st env sid M i) := by
  simp [generate_session, List.getElem?_map, List.getElem?_range, h]

/-- Inversion: a present row of the single-session file is the sample at its index. -/
theorem demo_row_inv (s : ℚ → ℚ) (p st : ℚ) (env : ℕ → DemoEnv) (D i : ℕ) (a : Sample)
    (h : (generate_demo_csv s p st env D)[i]? = some a) :
    i < D * 20 ∧ a = demoSample s p st env D i := by
  by_cases hlt : i < D * 20
  · have h2 := demo_row s p st env D i hlt
    rw [h] at h2
    exact ⟨hlt, Option.some_inj.mp h2⟩
  · have hnone : (generate_demo_csv s p st env D)[i]? = none :=
      List.getElem?_eq_none (by rw [demo_length]; omega)
    rw [hnone] at h
    exact absurd h (by simp)

/-- Inversion: a present row of a multi-session file is the sample at its index. -/
theorem pro_row_inv (s : ℚ → ℚ) (p st : ℚ) (env : ℕ → ProEnv) (sid M i : ℕ) (a : Sample)
    (h : (generate_session s p st env sid M)[i]? = some a) :
    i < M * 60 * 20 ∧ a = proSample s p st env sid M i := by
  by_cases hlt : i < M * 60 * 20
  · have h2 := pro_row s p st env sid M i hlt
    rw [h] at h2
    exact ⟨hlt, Option.some_inj.mp h2⟩
  · have hnone : (generate_session s p st env sid M)[i]? = none :=
      List.getElem?_eq_none (by rw [pro_length]; omega)
    rw [hnone] at h
    exact absurd h (by simp)

/-- Bounds on the unclamped multi-session PPG value when the sine is bounded by 1, the
uniform draws are in their documented ranges and the Gaussian noise draw is at most
42200 in magnitude. -/
theorem proPpgRaw_bounds (s : ℚ → ℚ) (p : ℚ) (e : ProEnv) (sid M : ℕ) (t : ℚ)
    (hs : ∀ x, |s x| ≤ 1) (hdur : ∀ k, 0 < e.dur k)
    (hamp : ∀ k, 0 ≤ e.amp k ∧ e.amp k ≤ 18000)
    (hn : |e.noiseG| ≤ 42200) :
    0 ≤ proPpgRaw s p e sid M t ∧ proPpgRaw s p e sid M t < 262144 := by
  have h1 := abs_le.mp (hs (t / 45))
  have h2 := abs_le.mp (hs (2 * p * (72 / 60) * t))
  have h3 := abs_le.mp (hs (2 * p * (14 / 60) * t))
  have h4 := clenchFold_bounds (12 + sid * 3) 0.15 e.dur e.amp
      (numWindows (M * 60) (12 + sid * 3)) t 18000 (by norm_num) (by norm_num) hdur hamp
  have h5 := abs_le.mp hn
  unfold proPpgRaw proCardiac proClench
  unfold proClench at h4
  constructor
  · linarith [h1.1, h2.1, h3.1, h4.1, h5.1]
  · linarith [h1.2, h2.2, h3.2, h4.2, h5.2]

/-- The draw-independent fields of a multi-session row list depend only on the session
parameters, not on the random draws or the sine function. -/
theorem gen_session_metaProj (s : ℚ → ℚ) (p st : ℚ) (env : ℕ → ProEnv) (sid M : ℕ) :
    (generate_session s p st env sid M).map metaProj
      = (List.range (M * 60 * 20)).map
          (fun (i : ℕ) => (st + (i : ℚ) / 20, 90 - (sid : ℤ) * 5, "ORALABLE-DEMO-DEVICE")) := by
  unfold generate_session
  rw [List.map_map]
  rfl

/-- Evaluation of `ppg_ir` at sample 0 of session 1 (duration 8 min) with the zero sine,
`math.pi` stand-in 3, start time 0, and constant draws `e` whose window-0 duration is 2:
at `t = 0` only window 0 is active and its ramp-up contributes 0, so the raw value is
`48000 + noise`. -/
theorem proPpg_ir_at0 (e : ProEnv) (h2 : e.dur 0 = 2) (hn : 0 ≤ e.noiseG) :
    (proSample zeroSin 3 0 (fun _ => e) 1 8 0).ppg_ir = ⌊48000 + e.noiseG⌋ := by
  show pyTrunc (proPpgRaw zeroSin 3 e 1 8 (((0 : ℕ) : ℚ) / 20)) = ⌊48000 + e.noiseG⌋
  have hcl : proClench e 1 8 (((0 : ℕ) : ℚ) / 20) = 0 := by
    unfold proClench
    rw [clenchFold_of_mem (12 + 1 * 3) 0.15 e.dur e.amp
        (numWindows (8 * 60) (12 + 1 * 3)) (((0 : ℕ) : ℚ) / 20) 0
        (by norm_num [numWindows])
        (by refine ⟨by norm_num, ?_⟩; rw [h2]; norm_num)
        ?_]
    · rw [h2]
      norm_num [clenchShape]
    · intro j hj hj0 hmem
      have h1 := hmem.1
      have hge : (1 : ℚ) ≤ (j : ℚ) := by exact_mod_cast Nat.one_le_iff_ne_zero.mpr hj0
      push_cast at h1
      nlinarith
  unfold proPpgRaw proCardiac
  rw [hcl]
  have hv : (48000 + 4000 * zeroSin ((((0 : ℕ) : ℚ) / 20) / 45))
      + 1200 * zeroSin (2 * 3 * (72 / 60) * (((0 : ℕ) : ℚ) / 20))
      + 600 * zeroSin (2 * 3 * (14 / 60) * (((0 : ℕ) : ℚ) / 20)) + 0 + e.noiseG
      = 48000 + e.noiseG := by
    norm_num [zeroSin]
  rw [hv]
  unfold pyTrunc
  rw [if_pos (by linarith)]

/-- Multi-session draws with an extreme (but possible) Gaussian PPG noise value. -/
def cProEnvBig : ProEnv := { wProEnv with noiseG := 300000 }

/-- Multi-session draws with an extreme (but possible) Gaussian SpO2 noise value. -/
def cProEnvSpo2 : ProEnv := { wProEnv with spo2G := 10 }

/-- C1: `ppg_ir` lies within `[0, 262143]`.  Amended: the single-session variant clamps
`ppg_ir`, so its bound holds for every input; the multi-session variant applies no clamp,
so its `ppg_ir` stays in range only under a bound on the (unbounded Gaussian) noise draw:
with `|sin| ≤ 1`, positive window durations, amplitude draws in `[0, 18000]` and
`|noise| ≤ 42200` every emitted `ppg_ir` is in `[0, 262143]`. -/
theorem c1_ppg_ir_range :
    (∀ (s : ℚ → ℚ) (p st : ℚ) (env : ℕ → DemoEnv) (D : ℕ) (smp : Sample),
      smp ∈ generate_demo_csv s p st env D → 0 ≤ smp.ppg_ir ∧ smp.ppg_ir ≤ 262143)
    ∧ (∀ (s : ℚ → ℚ) (p st : ℚ) (env : ℕ → ProEnv) (sid M : ℕ),
      (∀ x, |s x| ≤ 1) →
      (∀ i k, 0 < (env i).dur k) →
      (∀ i k, 0 ≤ (env i).amp k ∧ (env i).amp k ≤ 18000) →
      (∀ i, |(env i).noiseG| ≤ 42200) →
      ∀ smp : Sample, smp ∈ generate_session s p st env sid M →
        0 ≤ smp.ppg_ir ∧ smp.ppg_ir ≤ 262143) := by
  constructor
  · intro s p st env D smp hmem
    simp only [generate_demo_csv, List.mem_map] at hmem
    obtain ⟨i, hi, rfl⟩ := hmem
    exact ⟨le_max_left 0 _, max_le (by norm_num) (min_le_left _ _)⟩
  · intro s p st env sid M hs hdur hamp hn smp hmem
    simp only [generate_session, List.mem_map] at hmem
    obtain ⟨i, hi, rfl⟩ := hmem
    have hb := proPpgRaw_bounds s p (env i) sid M ((i : ℚ) / 20) hs (hdur i) (hamp i) (hn i)
    constructor
    · exact pyTrunc_nonneg _ hb.1
    · have hlt := pyTrunc_lt _ 262144 hb.1 (by exact_mod_cast hb.2)
      show pyTrunc (proPpgRaw s p (env i) sid M ((i : ℚ) / 20)) ≤ 262143
      omega

/-- C1 counterexample: the multi-session variant does not clamp `ppg_ir`, so a large
(possible) Gaussian noise draw puts the emitted value far above 262143: with the zero
sine, a session-1 8-minute session and a noise draw of 300000 the first row has
`ppg_ir = 348000`. -/
theorem c1_counterexample :
    proSample zeroSin 3 0 (fun _ => cProEnvBig) 1 8 0
        ∈ generate_session zeroSin 3 0 (fun _ => cProEnvBig) 1 8
    ∧ (∀ x, |zeroSin x| ≤ 1)
    ∧ 262143 < (proSample zeroSin 3 0 (fun _ => cProEnvBig) 1 8 0).ppg_ir := by
  refine ⟨?_, fun x => by norm_num [zeroSin], ?_⟩
  · simp only [generate_session]
    exact List.mem_map_of_mem _ (List.mem_range.mpr (by norm_num))
  · rw [proPpg_ir_at0 cProEnvBig rfl (by norm_num [cProEnvBig, wProEnv])]
    norm_num [cProEnvBig, wProEnv]

/-- C1 witness: both bounds instantiated at concrete admissible inputs. -/
theorem c1_witness :
    (0 ≤ (demoSample zeroSin 3 0 (fun _ => wDemoEnv) 1 0).ppg_ir
      ∧ (demoSample zeroSin 3 0 (fun _ => wDemoEnv) 1 0).ppg_ir ≤ 262143)
    ∧ (0 ≤ (proSample zeroSin 3 0 (fun _ => wProEnv) 1 8 0).ppg_ir
      ∧ (proSample zeroSin 3 0 (fun _ => wProEnv) 1 8 0).ppg_ir ≤ 262143) := by
  constructor
  · refine c1_ppg_ir_range.1 zeroSin 3 0 (fun _ => wDemoEnv) 1 _ ?_
    simp only [generate_demo_csv]
    exact List.mem_map_of_mem _ (List.mem_range.mpr (by norm_num))
  · refine c1_ppg_ir_range.2 zeroSin 3 0 (fun _ => wProEnv) 1 8
      (fun x => by norm_num [zeroSin])
      (fun i k => by norm_num [wProEnv])
      (fun i k => by norm_num [wProEnv])
      (fun i => by norm_num [wProEnv]) _ ?_
    simp only [generate_session]
    exact List.mem_map_of_mem _ (List.mem_range.mpr (by norm_num))

/-- C2: `spo2` lies within `[95, 100]`.  Amended: the single-session variant clamps
`spo2`, so its bound holds for every input; the multi-session variant emits
`98.0 + random.gauss(0, 0.4)` unclamped, so its bound holds exactly when the (unbounded
Gaussian) noise draw lies in `[-3, 2]`. -/
theorem c2_spo2_range :
    (∀ (s : ℚ → ℚ) (p st : ℚ) (env : ℕ → DemoEnv) (D : ℕ) (smp : Sample),
      smp ∈ generate_demo_csv s p st env D → 95 ≤ smp.spo2 ∧ smp.spo2 ≤ 100)
    ∧ (∀ (s : ℚ → ℚ) (p st : ℚ) (env : ℕ → ProEnv) (sid M : ℕ),
      (∀ i, -3 ≤ (env i).spo2G ∧ (env i).spo2G ≤ 2) →
      ∀ smp : Sample, smp ∈ generate_session s p st env sid M →
        95 ≤ smp.spo2 ∧ smp.spo2 ≤ 100) := by
  constructor
  · intro s p st env D smp hmem
    simp only [generate_demo_csv, List.mem_map] at hmem
    obtain ⟨i, hi, rfl⟩ := hmem
    exact ⟨le_max_left 95 _, max_le (by norm_num) (min_le_left _ _)⟩
  · intro s p st env sid M hg smp hmem
    simp only [generate_session, List.mem_map] at hmem
    obtain ⟨i, hi, rfl⟩ := hmem
    constructor
    · show (95 : ℚ) ≤ 98 + (env i).spo2G
      linarith [(hg i).1]
    · show 98 + (env i).spo2G ≤ (100 : ℚ)
      linarith [(hg i).2]

/-- C2 counterexample: the multi-session variant does not clamp `spo2`, so a large
(possible) Gaussian draw puts the emitted value above 100: a draw of 10 gives
`spo2 = 108`. -/
theorem c2_counterexample :
    proSample zeroSin 3 0 (fun _ => cProEnvSpo2) 1 8 0
        ∈ generate_session zeroSin 3 0 (fun _ => cProEnvSpo2) 1 8
    ∧ 100 < (proSample zeroSin 3 0 (fun _ => cProEnvSpo2) 1 8 0).spo2 := by
  constructor
  · simp only [generate_session]
    exact List.mem_map_of_mem _ (List.mem_range.mpr (by norm_num))
  · show (100 : ℚ) < 98 + cProEnvSpo2.spo2G
    norm_num [cProEnvSpo2, wProEnv]

/-- C2 witness: both bounds instantiated at concrete admissible inputs. -/
theorem c2_witness :
    (95 ≤ (demoSample zeroSin 3 0 (fun _ => wDemoEnv) 1 0).spo2
      ∧ (demoSample zeroSin 3 0 (fun _ => wDemoEnv) 1 0).spo2 ≤ 100)
    ∧ (95 ≤ (proSample zeroSin 3 0 (fun _ => wProEnv) 1 8 0).spo2
      ∧ (proSample zeroSin 3 0 (fun _ => wProEnv) 1 8 0).spo2 ≤ 100) := by
  constructor
  · refine c2_spo2_range.1 zeroSin 3 0 (fun _ => wDemoEnv) 1 _ ?_
    simp only [generate_demo_csv]
    exact List.mem_map_of_mem _ (List.mem_range.mpr (by norm_num))
  · refine c2_spo2_range.2 zeroSin 3 0 (fun _ => wProEnv) 1 8
      (fun i => by norm_num [wProEnv]) _ ?_
    simp only [generate_session]
    exact List.mem_map_of_mem _ (List.mem_range.mpr (by norm_num))

/-- C3: every generated session has exactly `duration_seconds * 20` samples
(single-session variant), respectively `duration_minutes * 60 * 20` samples
(multi-session variant), with the sample rate fixed at 20 Hz. -/
theorem c3_sample_count :
    (∀ (s : ℚ → ℚ) (p st : ℚ) (env : ℕ → DemoEnv) (D : ℕ),
      (generate_demo_csv s p st env D).length = D * 20)
    ∧ (∀ (s : ℚ → ℚ) (p st : ℚ) (env : ℕ → ProEnv) (sid M : ℕ),
      (generate_session s p st env sid M).length = M * 60 * 20) :=
  ⟨fun s p st env D => demo_length s p st env D,
   fun s p st env sid M => pro_length s p st env sid M⟩

/-- C4: in either variant consecutive timestamps differ by exactly 1/20 s (so the
sequence is strictly increasing), and for the 120-second single-session scenario row 0
carries the session start time and row 2399 carries start + 119.95 s (= 2399/20). -/
theorem c4_timestamps :
    (∀ (s : ℚ → ℚ) (p st : ℚ) (env : ℕ → DemoEnv) (D i : ℕ) (a b : Sample),
      (generate_demo_csv s p st env D)[i]? = some a →
      (generate_demo_csv s p st env D)[i + 1]? = some b →
      a.timestamp < b.timestamp ∧ b.timestamp = a.timestamp + 1 / 20)
    ∧ (∀ (s : ℚ → ℚ) (p st : ℚ) (env : ℕ → ProEnv) (sid M i : ℕ) (a b : Sample),
      (generate_session s p st env sid M)[i]? = some a →
      (generate_session s p st env sid M)[i + 1]? = some b →
      a.timestamp < b.timestamp ∧ b.timestamp = a.timestamp + 1 / 20)
    ∧ (∀ (s : ℚ → ℚ) (p st : ℚ) (env : ℕ → DemoEnv) (a b : Sample),
      (generate_demo_csv s p st env 120)[0]? = some a →
      (generate_demo_csv s p st env 120)[2399]? = some b →
      a.timestamp = st ∧ b.timestamp = st + 2399 / 20) := by
  refine ⟨?_, ?_, ?_⟩
  · intro s p st env D i a b ha hb
    obtain ⟨hi, rfl⟩ := demo_row_inv s p st env D i a ha
    obtain ⟨hi1, rfl⟩ := demo_row_inv s p st env D (i + 1) b hb
    constructor
    · show st + (i : ℚ) / 20 < st + ((i + 1 : ℕ) : ℚ) / 20
      push_cast
      linarith
    · show st + ((i + 1 : ℕ) : ℚ) / 20 = st + (i : ℚ) / 20 + 1 / 20
      push_cast
      ring
  · intro s p st env sid M i a b ha hb
    obtain ⟨hi, rfl⟩ := pro_row_inv s p st env sid M i a ha
    obtain ⟨hi1, rfl⟩ := pro_row_inv s p st env sid M (i + 1) b hb
    constructor
    · show st + (i : ℚ) / 20 < st + ((i + 1 : ℕ) : ℚ) / 20
      push_cast
      linarith
    · show st + ((i + 1 : ℕ) : ℚ) / 20 = st + (i : ℚ) / 20 + 1 / 20
      push_cast
      ring
  · intro s p st env a b ha hb
    obtain ⟨h0, rfl⟩ := demo_row_inv s p st env 120 0 a ha
    obtain ⟨h2399, rfl⟩ := demo_row_inv s p st env 120 2399 b hb
    constructor
    · show st + ((0 : ℕ) : ℚ) / 20 = st
      norm_num
    · show st + ((2399 : ℕ) : ℚ) / 20 = st + 2399 / 20
      norm_num

/-- C4 witness: the spacing and the endpoint properties at a concrete session. -/
theorem c4_witness :
    ((demoSample zeroSin 3 0 (fun _ => wDemoEnv) 120 0).timestamp
        < (demoSample zeroSin 3 0 (fun _ => wDemoEnv) 120 1).timestamp
      ∧ (demoSample zeroSin 3 0 (fun _ => wDemoEnv) 120 1).timestamp
        = (demoSample zeroSin 3 0 (fun _ => wDemoEnv) 120 0).timestamp + 1 / 20)
    ∧ ((demoSample zeroSin 3 0 (fun _ => wDemoEnv) 120 0).timestamp = 0
      ∧ (demoSample zeroSin 3 0 (fun _ => wDemoEnv) 120 2399).timestamp = 0 + 2399 / 20) :=
  ⟨c4_timestamps.1 zeroSin 3 0 (fun _ => wDemoEnv) 120 0 _ _
      (demo_row zeroSin 3 0 (fun _ => wDemoEnv) 120 0 (by norm_num))
      (demo_row zeroSin 3 0 (fun _ => wDemoEnv) 120 1 (by norm_num)),
   c4_timestamps.2.2 zeroSin 3 0 (fun _ => wDemoEnv) _ _
      (demo_row zeroSin 3 0 (fun _ => wDemoEnv) 120 0 (by norm_num))
      (demo_row zeroSin 3 0 (fun _ => wDemoEnv) 120 2399 (by norm_num))⟩

/-- Demo draws for the C5 scenario: window duration 3 s, plateau amplitude 10000. -/
def c5EnvA : DemoEnv := { wDemoEnv with dur := fun _ => 3, amp := fun _ => 10000 }

/-- Demo draws for the C5 scenario: window duration 3 s, plateau amplitude 20000. -/
def c5EnvB : DemoEnv := { wDemoEnv with dur := fun _ => 3, amp := fun _ => 20000 }

/-- Per-sample draw assignment where sample 30 draws a different plateau amplitude than
sample 20 (both lie in the plateau of the first clench window). -/
def c5Env : ℕ → DemoEnv := fun i => if i = 30 then c5EnvB else c5EnvA

/-- C5: the clench envelope.  Amended: the trapezoid shape (linear ramp over the first
and last 20% — 15% in the multi-session variant — plateau in between, zero outside every
window) is correct per SAMPLE, but the duration and amplitude are redrawn at every
sample, not fixed once per window: the envelope at time `t` inside window `k` equals
`clenchShape` of THAT SAMPLE's draws `dur k`, `amp k`.  In particular at `t = 1.5` in a
window starting at 0 with that sample's duration draw 3.0 the envelope equals that
sample's plateau draw (positive, as the draws lie in [10000, 20000]), and at `t = 10`
(between windows at 15 s spacing) it is 0. -/
theorem c5_clench_envelope :
    (∀ (e : DemoEnv) (D : ℕ) (t : ℚ) (k : ℕ),
      (∀ j, 2 ≤ e.dur j ∧ e.dur j ≤ 4) → k < numWindows D 15 → inWindow 15 e.dur k t →
      demoClench e D t = clenchShape 0.2 ((t - 15 * k) / e.dur k) (e.amp k))
    ∧ (∀ (e : DemoEnv) (D : ℕ) (t : ℚ),
      (∀ j, j < numWindows D 15 → ¬ inWindow 15 e.dur j t) → demoClench e D t = 0)
    ∧ (∀ e : DemoEnv, (∀ j, 2 ≤ e.dur j ∧ e.dur j ≤ 4) → e.dur 0 = 3 →
      (∀ j, 10000 ≤ e.amp j ∧ e.amp j ≤ 20000) →
      demoClench e 120 (3 / 2) = e.amp 0 ∧ 0 < demoClench e 120 (3 / 2))
    ∧ (∀ e : DemoEnv, (∀ j, e.dur j ≤ 4) → demoClench e 120 10 = 0)
    ∧ (∀ (e : ProEnv) (sid M : ℕ) (t : ℚ) (k : ℕ),
      (∀ j, 3 / 2 ≤ e.dur j ∧ e.dur j ≤ 7 / 2) →
      k < numWindows (M * 60) (12 + sid * 3) → inWindow (12 + sid * 3) e.dur k t →
      proClench e sid M t
        = clenchShape 0.15 ((t - ((12 + sid * 3 : ℕ) : ℚ) * k) / e.dur k) (e.amp k)) := by
  have hdemo : ∀ (e : DemoEnv) (D : ℕ) (t : ℚ) (k : ℕ),
      (∀ j, 2 ≤ e.dur j ∧ e.dur j ≤ 4) → k < numWindows D 15 → inWindow 15 e.dur k t →
      demoClench e D t = clenchShape 0.2 ((t - 15 * k) / e.dur k) (e.amp k) := by
    intro e D t k hd hkn hk
    have huniq : ∀ j, j < numWindows D 15 → j ≠ k → ¬ inWindow 15 e.dur j t := by
      intro j hj hjk hmem
      exact hjk (window_unique 15 e.dur 4 (fun m => (hd m).2) (by norm_num) t j k hmem hk)
    unfold demoClench
    rw [clenchFold_of_mem 15 0.2 e.dur e.amp (numWindows D 15) t k hkn hk huniq]
    norm_num
  refine ⟨hdemo, ?_, ?_, ?_, ?_⟩
  · intro e D t h
    unfold demoClench
    exact clenchFold_of_not_mem 15 0.2 e.dur e.amp (numWindows D 15) t h
  · intro e hd h3 hamp
    have hmem : inWindow 15 e.dur 0 (3 / 2) := by
      refine ⟨by norm_num, ?_⟩
      rw [h3]
      norm_num
    have h := hdemo e 120 (3 / 2) 0 hd (by norm_num [numWindows]) hmem
    rw [h, h3]
    have hs : clenchShape 0.2 ((3 / 2 - 15 * ((0 : ℕ) : ℚ)) / 3) (e.amp 0) = e.amp 0 := by
      norm_num [clenchShape]
    rw [hs]
    exact ⟨rfl, by linarith [(hamp 0).1]⟩
  · intro e hd
    unfold demoClench
    refine clenchFold_of_not_mem 15 0.2 e.dur e.amp (numWindows 120 15) 10
      (fun j hj hmem => ?_)
    rcases Nat.eq_zero_or_pos j with h0 | h1
    · subst h0
      have h2 := hmem.2
      have h4 := hd 0
      push_cast at h2
      linarith
    · have hge : (1 : ℚ) ≤ (j : ℚ) := by exact_mod_cast h1
      have h2 := hmem.1
      push_cast at h2
      nlinarith
  · intro e sid M t k hd hkn hk
    have hms : (7 : ℚ) / 2 ≤ ((12 + sid * 3 : ℕ) : ℚ) := by
      push_cast
      have h0 : (0 : ℚ) ≤ (sid : ℚ) := by positivity
      linarith
    have huniq : ∀ j, j < numWindows (M * 60) (12 + sid * 3) → j ≠ k →
        ¬ inWindow (12 + sid * 3) e.dur j t := by
      intro j hj hjk hmem
      exact hjk (window_unique (12 + sid * 3) e.dur (7 / 2) (fun m => (hd m).2) hms t j k
        hmem hk)
    unfold proClench
    exact clenchFold_of_mem (12 + sid * 3) 0.15 e.dur e.amp
      (numWindows (M * 60) (12 + sid * 3)) t k hkn hk huniq

/-- C5 counterexample: the plateau amplitude is not a single random value per window.
Samples 20 (t = 1 s) and 30 (t = 1.5 s) of the same session both lie in the plateau of
the first window (start 0, duration draw 3 s in both samples), yet the envelope is 10000
at one and 20000 at the other, because the amplitude is redrawn at every sample. -/
theorem c5_counterexample :
    inWindow 15 (c5Env 20).dur 0 1 ∧ inWindow 15 (c5Env 30).dur 0 (3 / 2)
    ∧ (c5Env 20).dur 0 = 3 ∧ (c5Env 30).dur 0 = 3
    ∧ demoClench (c5Env 20) 120 1 = 10000
    ∧ demoClench (c5Env 30) 120 (3 / 2) = 20000 := by
  have h20 : c5Env 20 = c5EnvA := by norm_num [c5Env]
  have h30 : c5Env 30 = c5EnvB := by norm_num [c5Env]
  have hwA : inWindow 15 c5EnvA.dur 0 1 := by
    refine ⟨by norm_num, ?_⟩
    norm_num [c5EnvA, wDemoEnv]
  have hwB : inWindow 15 c5EnvB.dur 0 (3 / 2) := by
    refine ⟨by norm_num, ?_⟩
    norm_num [c5EnvB, wDemoEnv]
  have huA : ∀ j, j < numWindows 120 15 → j ≠ 0 → ¬ inWindow 15 c5EnvA.dur j 1 := by
    intro j hj hj0 hmem
    have hge : (1 : ℚ) ≤ (j : ℚ) := by exact_mod_cast Nat.one_le_iff_ne_zero.mpr hj0
    have h2 := hmem.1
    push_cast at h2
    nlinarith
  have huB : ∀ j, j < numWindows 120 15 → j ≠ 0 → ¬ inWindow 15 c5EnvB.dur j (3 / 2) := by
    intro j hj hj0 hmem
    have hge : (1 : ℚ) ≤ (j : ℚ) := by exact_mod_cast Nat.one_le_iff_ne_zero.mpr hj0
    have h2 := hmem.1
    push_cast at h2
    nlinarith
  refine ⟨h20 ▸ hwA, h30 ▸ hwB, by norm_num [c5Env, c5EnvA, wDemoEnv],
    by norm_num [c5Env, c5EnvB, wDemoEnv], ?_, ?_⟩
  · rw [h20]
    unfold demoClench
    rw [clenchFold_of_mem 15 0.2 c5EnvA.dur c5EnvA.amp (numWindows 120 15) 1 0
      (by norm_num [numWindows]) hwA huA]
    norm_num [clenchShape, c5EnvA, wDemoEnv]
  · rw [h30]
    unfold demoClench
    rw [clenchFold_of_mem 15 0.2 c5EnvB.dur c5EnvB.amp (numWindows 120 15) (3 / 2) 0
      (by norm_num [numWindows]) hwB huB]
    norm_num [clenchShape, c5EnvB, wDemoEnv]

/-- C5 witness: the mid-window and between-window scenarios at concrete draws. -/
theorem c5_witness :
    (demoClench c5EnvA 120 (3 / 2) = c5EnvA.amp 0 ∧ 0 < demoClench c5EnvA 120 (3 / 2))
    ∧ demoClench c5EnvA 120 10 = 0 :=
  ⟨c5_clench_envelope.2.2.1 c5EnvA
      (fun j => by norm_num [c5EnvA, wDemoEnv])
      (by norm_num [c5EnvA, wDemoEnv])
      (fun j => by norm_num [c5EnvA, wDemoEnv]),
   c5_clench_envelope.2.2.2.1 c5EnvA (fun j => by norm_num [c5EnvA, wDemoEnv])⟩

/-- Demo draws whose bpm draw is at the bottom of the `uniform(-2, 2)` range. -/
def c6EnvA : DemoEnv := { wDemoEnv with hrU := -2 }

/-- Demo draws whose bpm draw is at the top of the `uniform(-2, 2)` range. -/
def c6EnvB : DemoEnv := { wDemoEnv with hrU := 2 }

/-- Per-sample draw assignment where samples 0 and 1 receive different bpm draws. -/
def c6Env : ℕ → DemoEnv := fun i => if i = 0 then c6EnvA else c6EnvB

/-- C6: the cardiac component.  Amended: in both variants each sample's cardiac value is
`Camp * sin(2π * (bpm/60) * t)`, but the bpm is NOT drawn once per generation call: the
single-session variant draws `70 + uniform(-2, 2)` afresh inside the per-sample loop
(so two samples of one call can use different bpm values), and the multi-session variant
uses the constant 72 (not randomized at all). -/
theorem c6_cardiac :
    (∀ (s : ℚ → ℚ) (p : ℚ) (e : DemoEnv) (t : ℚ),
      demoCardiac s p e t = 1500 * s (2 * p * ((70 + e.hrU) / 60) * t))
    ∧ (∃ env : ℕ → DemoEnv,
      (∀ i, -2 ≤ (env i).hrU ∧ (env i).hrU ≤ 2) ∧ demoBpm (env 0) ≠ demoBpm (env 1))
    ∧ (∀ (s : ℚ → ℚ) (p : ℚ) (t : ℚ), proCardiac s p t = 1200 * s (2 * p * (72 / 60) * t)) := by
  refine ⟨fun s p e t => rfl, ⟨c6Env, ?_, ?_⟩, fun s p t => rfl⟩
  · intro i
    by_cases h : i = 0
    · simp only [c6Env, h, if_pos rfl]
      norm_num [c6EnvA, wDemoEnv]
    · simp only [c6Env, if_neg h]
      norm_num [c6EnvB, wDemoEnv]
  · norm_num [demoBpm, c6Env, c6EnvA, c6EnvB, wDemoEnv]

/-- C6 counterexample: two samples of the same `generate_demo_csv` call use different
bpm values (68 and 72), both from draws inside the documented `uniform(-2, 2)` range;
the emitted heart-rate column shows the difference. -/
theorem c6_counterexample :
    demoBpm (c6Env 0) = 68 ∧ demoBpm (c6Env 1) = 72
    ∧ (-2 ≤ (c6Env 0).hrU ∧ (c6Env 0).hrU ≤ 2) ∧ (-2 ≤ (c6Env 1).hrU ∧ (c6Env 1).hrU ≤ 2)
    ∧ (demoSample zeroSin 3 0 c6Env 120 0).heart_rate = 68
    ∧ (demoSample zeroSin 3 0 c6Env 120 1).heart_rate = 72 := by
  refine ⟨by norm_num [demoBpm, c6Env, c6EnvA, wDemoEnv],
    by norm_num [demoBpm, c6Env, c6EnvB, wDemoEnv],
    by norm_num [c6Env, c6EnvA, wDemoEnv],
    by norm_num [c6Env, c6EnvB, wDemoEnv], ?_, ?_⟩
  · show pyTrunc (demoBpm (c6Env 0) + (c6Env 0).hrDispG) = 68
    norm_num [pyTrunc, demoBpm, c6Env, c6EnvA, wDemoEnv]
  · show pyTrunc (demoBpm (c6Env 1) + (c6Env 1).hrDispG) = 72
    norm_num [pyTrunc, demoBpm, c6Env, c6EnvB, wDemoEnv]

/-- C7: red and green PPG channels.  Amended: in the single-session variant
`ppg_red = int(0.7 * ppg_ir + gauss(0, 200))` and `ppg_green = int(0.5 * ppg_ir +
gauss(0, 150))` with their own draws, which affect neither `ppg_ir` nor the other
channel; in the multi-session variant `ppg_red = int(0.7 * ppg_ir)` and
`ppg_green = int(0.5 * ppg_ir)` with NO noise term. -/
theorem c7_red_green :
    (∀ (s : ℚ → ℚ) (p st : ℚ) (e : DemoEnv) (D i : ℕ) (x y : ℚ),
      (demoSampleE s p st { e with redG := x, greenG := y } D i).ppg_ir
          = (demoSampleE s p st e D i).ppg_ir
      ∧ (demoSampleE s p st { e with redG := x, greenG := y } D i).ppg_red
          = pyTrunc (((demoSampleE s p st e D i).ppg_ir : ℚ) * 0.7 + x)
      ∧ (demoSampleE s p st { e with redG := x, greenG := y } D i).ppg_green
          = pyTrunc (((demoSampleE s p st e D i).ppg_ir : ℚ) * 0.5 + y))
    ∧ (∀ (s : ℚ → ℚ) (p st : ℚ) (e : ProEnv) (sid M i : ℕ),
      (proSampleE s p st e sid M i).ppg_red
          = pyTrunc (((proSampleE s p st e sid M i).ppg_ir : ℚ) * 0.7)
      ∧ (proSampleE s p st e sid M i).ppg_green
          = pyTrunc (((proSampleE s p st e sid M i).ppg_ir : ℚ) * 0.5)) :=
  ⟨fun _ _ _ _ _ _ _ _ => ⟨rfl, rfl, rfl⟩, fun _ _ _ _ _ _ _ => ⟨rfl, rfl⟩⟩

/-- C7 counterexample: in the multi-session variant the red and green channels are
exact deterministic fractions of `ppg_ir`: at the first row of a session-1 run the
emitted `ppg_red` equals `int(0.7 * ppg_ir)` exactly, and any nonzero noise term of the
size the claim describes (e.g. 200, resp. 150) would have produced a different value. -/
theorem c7_counterexample :
    (proSample zeroSin 3 0 (fun _ => wProEnv) 1 8 0).ppg_red
        = pyTrunc (((proSample zeroSin 3 0 (fun _ => wProEnv) 1 8 0).ppg_ir : ℚ) * 0.7)
    ∧ pyTrunc (((proSample zeroSin 3 0 (fun _ => wProEnv) 1 8 0).ppg_ir : ℚ) * 0.7 + 200)
        ≠ (proSample zeroSin 3 0 (fun _ => wProEnv) 1 8 0).ppg_red
    ∧ pyTrunc (((proSample zeroSin 3 0 (fun _ => wProEnv) 1 8 0).ppg_ir : ℚ) * 0.5 + 150)
        ≠ (proSample zeroSin 3 0 (fun _ => wProEnv) 1 8 0).ppg_green := by
  have hir : (proSample zeroSin 3 0 (fun _ => wProEnv) 1 8 0).ppg_ir = 48000 := by
    rw [proPpg_ir_at0 wProEnv rfl (by norm_num [wProEnv])]
    norm_num [wProEnv]
  have hred : (proSample zeroSin 3 0 (fun _ => wProEnv) 1 8 0).ppg_red
      = pyTrunc (((proSample zeroSin 3 0 (fun _ => wProEnv) 1 8 0).ppg_ir : ℚ) * 0.7) := rfl
  have hgreen : (proSample zeroSin 3 0 (fun _ => wProEnv) 1 8 0).ppg_green
      = pyTrunc (((proSample zeroSin 3 0 (fun _ => wProEnv) 1 8 0).ppg_ir : ℚ) * 0.5) := rfl
  refine ⟨hred, ?_, ?_⟩
  · rw [hred, hir]
    norm_num [pyTrunc]
  · rw [hgreen, hir]
    norm_num [pyTrunc]

/-- Multi-session draws equal to `wProEnv` except for the PPG noise draw. -/
def c8Env2 : ProEnv := { wProEnv with noiseG := 1 }

/-- C8: the all-sessions file.  Amended: `generate_professional_demo` builds
`demo_participant_all_sessions.csv` by generating every session a SECOND time, with
fresh random draws, and concatenating those re-generated row lists; so the combined file
is the concatenation of the re-generated sessions (first conjunct), its length and its
draw-independent columns (timestamp, battery, device_id) agree row-by-row with the
concatenation of the per-session files (second and third conjuncts), but its rows are
not the per-session files' rows unless the two passes happen to draw identically. -/
theorem c8_all_sessions :
    (∀ (s : ℚ → ℚ) (p : ℚ) (dates : Fin 3 → ℚ) (pass : Fin 3 → ℕ → ProEnv),
      allSessionsRows s p dates pass
        = sessFile s p dates pass 0 ++ sessFile s p dates pass 1 ++ sessFile s p dates pass 2)
    ∧ (∀ (s : ℚ → ℚ) (p : ℚ) (dates : Fin 3 → ℚ) (pa pb : Fin 3 → ℕ → ProEnv),
      (allSessionsRows s p dates pb).length
        = (sessFile s p dates pa 0).length + (sessFile s p dates pa 1).length
          + (sessFile s p dates pa 2).length)
    ∧ (∀ (s : ℚ → ℚ) (p : ℚ) (dates : Fin 3 → ℚ) (pa pb : Fin 3 → ℕ → ProEnv),
      (allSessionsRows s p dates pb).map metaProj
        = (sessFile s p dates pa 0).map metaProj ++ (sessFile s p dates pa 1).map metaProj
          ++ (sessFile s p dates pa 2).map metaProj) := by
  refine ⟨fun _ _ _ _ => rfl, ?_, ?_⟩
  · intro s p dates pa pb
    simp only [allSessionsRows, List.length_append, sessFile, pro_length]
  · intro s p dates pa pb
    simp only [allSessionsRows, List.map_append, sessFile, gen_session_metaProj]

/-- C8 counterexample: the data rows of the all-sessions file are NOT the concatenation
of the per-session files' rows: the second pass draws fresh random values, and already
the first row differs (`ppg_ir` 48001 vs 48000) when the second pass's noise draw at
sample 0 of session 1 is 1 instead of 0. -/
theorem c8_counterexample :
    allSessionsRows zeroSin 3 (fun _ => 0) (fun _ _ => c8Env2)
      ≠ sessFile zeroSin 3 (fun _ => 0) (fun _ _ => wProEnv) 0
        ++ sessFile zeroSin 3 (fun _ => 0) (fun _ _ => wProEnv) 1
        ++ sessFile zeroSin 3 (fun _ => 0) (fun _ _ => wProEnv) 2 := by
  have e2 : sessFile zeroSin 3 (fun _ => 0) (fun _ _ => c8Env2) 0
      = generate_session zeroSin 3 0 (fun _ => c8Env2) 1 8 := rfl
  have e1 : sessFile zeroSin 3 (fun _ => 0) (fun _ _ => wProEnv) 0
      = generate_session zeroSin 3 0 (fun _ => wProEnv) 1 8 := rfl
  have hA : (allSessionsRows zeroSin 3 (fun _ => 0) (fun _ _ => c8Env2))[0]?
      = some (proSample zeroSin 3 0 (fun _ => c8Env2) 1 8 0) := by
    unfold allSessionsRows
    have hl0 : 0 < (sessFile zeroSin 3 (fun _ => 0) (fun _ _ => c8Env2) 0).length := by
      rw [e2, pro_length]
      norm_num
    have hl01 : 0 < (sessFile zeroSin 3 (fun _ => 0) (fun _ _ => c8Env2) 0
        ++ sessFile zeroSin 3 (fun _ => 0) (fun _ _ => c8Env2) 1).length := by
      rw [List.length_append]
      omega
    rw [List.getElem?_append_left hl01, List.getElem?_append_left hl0, e2]
    exact pro_row zeroSin 3 0 (fun _ => c8Env2) 1 8 0 (by norm_num)
  have hB : (sessFile zeroSin 3 (fun _ => 0) (fun _ _ => wProEnv) 0
      ++ sessFile zeroSin 3 (fun _ => 0) (fun _ _ => wProEnv) 1
      ++ sessFile zeroSin 3 (fun _ => 0) (fun _ _ => wProEnv) 2)[0]?
      = some (proSample zeroSin 3 0 (fun _ => wProEnv) 1 8 0) := by
    have hl0 : 0 < (sessFile zeroSin 3 (fun _ => 0) (fun _ _ => wProEnv) 0).length := by
      rw [e1, pro_length]
      norm_num
    have hl01 : 0 < (sessFile zeroSin 3 (fun _ => 0) (fun _ _ => wProEnv) 0
        ++ sessFile zeroSin 3 (fun _ => 0) (fun _ _ => wProEnv) 1).length := by
      rw [List.length_append]
      omega
    rw [List.getElem?_append_left hl01, List.getElem?_append_left hl0, e1]
    exact pro_row zeroSin 3 0 (fun _ => wProEnv) 1 8 0 (by norm_num)
  intro h
  rw [h] at hA
  rw [hB] at hA
  have hs := Option.some_inj.mp hA
  have hirA := proPpg_ir_at0 c8Env2 rfl (by norm_num [c8Env2])
  have hirB := proPpg_ir_at0 wProEnv rfl (by norm_num [wProEnv])
  rw [hs] at hirB
  rw [hirA] at hirB
  norm_num [c8Env2, wProEnv] at hirB

/-- C9: clench windows never overlap: in the single-session variant the spacing is 15 s
and every duration draw is at most 4 s; in the multi-session variant the spacing is
`12 + session_id * 3` seconds and every duration draw is at most 3.5 s; hence two
windows containing the same time coincide, so at most one window contributes at any
time. -/
theorem c9_windows_disjoint :
    (∀ (e : DemoEnv) (t : ℚ) (j k : ℕ), (∀ m, e.dur m ≤ 4) →
      inWindow 15 e.dur j t → inWindow 15 e.dur k t → j = k)
    ∧ (∀ (e : ProEnv) (sid : ℕ) (t : ℚ) (j k : ℕ), (∀ m, e.dur m ≤ 7 / 2) →
      inWindow (12 + sid * 3) e.dur j t → inWindow (12 + sid * 3) e.dur k t → j = k) := by
  constructor
  · intro e t j k hd hj hk
    exact window_unique 15 e.dur 4 hd (by norm_num) t j k hj hk
  · intro e sid t j k hd hj hk
    have hms : (7 : ℚ) / 2 ≤ ((12 + sid * 3 : ℕ) : ℚ) := by
      push_cast
      have h0 : (0 : ℚ) ≤ (sid : ℚ) := by positivity
      linarith
    exact window_unique (12 + sid * 3) e.dur (7 / 2) hd hms t j k hj hk

/-- C9 witness: both disjointness statements instantiated at concrete inputs. -/
theorem c9_witness : (0 : ℕ) = 0 ∧ (0 : ℕ) = 0 :=
  ⟨c9_windows_disjoint.1 wDemoEnv 1 0 0 (fun m => by norm_num [wDemoEnv])
      ⟨by norm_num, by norm_num [wDemoEnv]⟩ ⟨by norm_num, by norm_num [wDemoEnv]⟩,
   c9_windows_disjoint.2 wProEnv 1 1 0 0 (fun m => by norm_num [wProEnv])
      ⟨by norm_num, by norm_num [wProEnv]⟩ ⟨by norm_num, by norm_num [wProEnv]⟩⟩

/-- C10: the battery column: 85 for every sample of the single-session variant, and
`90 - session_id * 5` for every sample of a multi-session session — hence 85, 80, 75
for the three generated sessions (ids 1, 2, 3). -/
theorem c10_battery :
    (∀ (s : ℚ → ℚ) (p st : ℚ) (env : ℕ → DemoEnv) (D : ℕ) (smp : Sample),
      smp ∈ generate_demo_csv s p st env D → smp.battery = 85)
    ∧ (∀ (s : ℚ → ℚ) (p st : ℚ) (env : ℕ → ProEnv) (sid M : ℕ) (smp : Sample),
      smp ∈ generate_session s p st env sid M → smp.battery = 90 - (sid : ℤ) * 5)
    ∧ (∀ (s : ℚ → ℚ) (p : ℚ) (dates : Fin 3 → ℚ) (pass : Fin 3 → ℕ → ProEnv)
        (smp : Sample),
      (smp ∈ sessFile s p dates pass 0 → smp.battery = 85)
      ∧ (smp ∈ sessFile s p dates pass 1 → smp.battery = 80)
      ∧ (smp ∈ sessFile s p dates pass 2 → smp.battery = 75)) := by
  have hpro : ∀ (s : ℚ → ℚ) (p st : ℚ) (env : ℕ → ProEnv) (sid M : ℕ) (smp : Sample),
      smp ∈ generate_session s p st env sid M → smp.battery = 90 - (sid : ℤ) * 5 := by
    intro s p st env sid M smp hmem
    simp only [generate_session, List.mem_map] at hmem
    obtain ⟨i, hi, rfl⟩ := hmem
    rfl
  refine ⟨?_, hpro, ?_⟩
  · intro s p st env D smp hmem
    simp only [generate_demo_csv, List.mem_map] at hmem
    obtain ⟨i, hi, rfl⟩ := hmem
    rfl
  · intro s p dates pass smp
    refine ⟨fun h => ?_, fun h => ?_, fun h => ?_⟩
    · have h85 := hpro s p (dates 0) (pass 0) 1 8 smp h
      rw [h85]
      norm_num
    · have h80 := hpro s p (dates 1) (pass 1) 2 10 smp h
      rw [h80]
      norm_num
    · have h75 := hpro s p (dates 2) (pass 2) 3 12 smp h
      rw [h75]
      norm_num

/-- C10 witness: the battery values at concrete samples of both variants. -/
theorem c10_witness :
    (demoSample zeroSin 3 0 (fun _ => wDemoEnv) 1 0).battery = 85
    ∧ (proSample zeroSin 3 0 (fun _ => wProEnv) 1 8 0).battery = 85 := by
  constructor
  · refine c10_battery.1 zeroSin 3 0 (fun _ => wDemoEnv) 1 _ ?_
    simp only [generate_demo_csv]
    exact List.mem_map_of_mem _ (List.mem_range.mpr (by norm_num))
  · refine (c10_battery.2.2 zeroSin 3 (fun _ => 0) (fun _ _ => wProEnv)
      (proSample zeroSin 3 0 (fun _ => wProEnv) 1 8 0)).1 ?_
    show proSample zeroSin 3 0 (fun _ => wProEnv) 1 8 0
        ∈ generate_session zeroSin 3 0 (fun _ => wProEnv) 1 8
    simp only [generate_session]
    exact List.mem_map_of_mem _ (List.mem_range.mpr (by norm_num))
